import Mathlib

/-
Verification development for the cosmetic-checker repository.

The repository has two Python source files:
  APP_Cosmeticos.py        - the ingredient checker application
  scripts/check_annexes.py - the source freshness tracker

This file gives a shallow embedding of the data model and of the operations
the claims are about, and proves or refutes each claim against it.

Modelling conventions:
- pandas DataFrames are modelled by the structure DF below; every cell is a
  String, because every matching operation in the source first applies
  astype(str) (or str(...)) to the cells it inspects.
- Python exceptions are modelled with Except String; a raised exception is an
  error value that propagates until a try/except of the source catches it.
- pandas Series.str.contains(pat, case=False, regex=True) is modelled by
  pyContains below: the pattern string is parsed into a sequence of atoms and
  searched at every position.  The parser models the fragment of the Python
  regex language in which the only special characters are the dot (matching
  any character), and parentheses (grouping, which without quantifiers is
  just inlining; an unbalanced parenthesis is a compile error, as in re).
  All other characters are treated as literals.  Every concrete pattern used
  in the theorems below stays inside this fragment, and the general theorems
  that depend on the matcher carry an explicit hypothesis restricting the
  pattern to plain literal characters.
- Python substring containment (the in operator on str) is modelled by
  litContains.
-/

-- ===================================================================
-- Python string primitives
-- ===================================================================

/-- Whitespace characters recognised by Python str.strip (the ones occurring
in the data we model). -/
def isWS (c : Char) : Bool :=
  c == ' ' || c == '\t' || c == '\n' || c == '\r'

/-- ASCII lower-casing of one character, the effect of Python str.lower on the
character sets appearing in the sources. -/
def lowerChar (c : Char) : Char :=
  if 65 ≤ c.toNat ∧ c.toNat ≤ 90 then Char.ofNat (c.toNat + 32) else c

/-- Trim whitespace from both ends of a character list (Python str.strip). -/
def trimL (l : List Char) : List Char :=
  ((l.dropWhile isWS).reverse.dropWhile isWS).reverse

/-- Python str.strip. -/
def pyStrip (s : String) : String := ⟨trimL s.data⟩

/-- Python str.lower. -/
def pyLower (s : String) : String := ⟨s.data.map lowerChar⟩

/-- Does the list start with the given pattern list (Python str.startswith,
used as the one-position step of substring containment). -/
def startsWithL (pat : List Char) : List Char → Bool
  | [] => pat.isEmpty
  | c :: rest =>
    match pat with
    | [] => true
    | p :: ps => p == c && startsWithL ps rest

/-- Substring containment on character lists: the Python expression
needle in hay for strings. -/
def isSubSeg (pat : List Char) : List Char → Bool
  | [] => pat.isEmpty
  | c :: rest => startsWithL pat (c :: rest) || isSubSeg pat rest

/-- Python substring containment, needle in hay. -/
def litContains (needle hay : String) : Bool :=
  isSubSeg needle.data hay.data

/-- Decimal digit test (ASCII), the regex class backslash-d over our data. -/
def isDigit (c : Char) : Bool :=
  48 ≤ c.toNat && c.toNat ≤ 57

-- ===================================================================
-- Modelled fragment of Python regular expressions
-- (pandas Series.str.contains with regex=True calls re.search)
-- ===================================================================

/-- One atom of a compiled pattern: a literal character or the dot. -/
inductive RAtom
  | lit (c : Char)
  | dot
deriving DecidableEq

/-- Parse a pattern string (as a character list) into atoms.  The Nat argument
is the number of open groups.  A closing parenthesis with no open group, or an
open group left unclosed at the end of the pattern, is a compile error, as in
re.compile.  Groups carry no quantifiers in the modelled fragment, so they are
inlined.  Characters other than the dot and the parentheses are literals. -/
def parsePat : List Char → Nat → Except String (List RAtom)
  | [], 0 => .ok []
  | [], _ + 1 => .error "missing ), unterminated subpattern"
  | c :: rest, d =>
    if c = '(' then parsePat rest (d + 1)
    else if c = ')' then
      match d with
      | 0 => .error "unbalanced parenthesis"
      | d' + 1 => parsePat rest d'
    else if c = '.' then (parsePat rest d).map (RAtom.dot :: ·)
    else (parsePat rest d).map (RAtom.lit c :: ·)

/-- Match the atom sequence against a prefix of the text. -/
def matchAt : List RAtom → List Char → Bool
  | [], _ => true
  | _ :: _, [] => false
  | .lit c :: ps, x :: xs => c == x && matchAt ps xs
  | .dot :: ps, _ :: xs => matchAt ps xs

/-- Search the atom sequence at every position of the text (re.search). -/
def searchR (ps : List RAtom) : List Char → Bool
  | [] => matchAt ps []
  | c :: rest => matchAt ps (c :: rest) || searchR ps rest

/-- pandas Series.str.contains(pat, case=False, na=False, regex=True) applied
to one cell: the pattern is compiled (an invalid pattern raises), both pattern
and cell are compared case-insensitively (modelled by lower-casing both), and
the compiled pattern is searched anywhere in the cell. -/
def pyContains (pat s : String) : Except String Bool :=
  (parsePat (pyLower pat).data 0).map (fun ps => searchR ps (pyLower s).data)

-- ===================================================================
-- DataFrames
-- ===================================================================

/-- A pandas DataFrame: column labels plus rows of string cells. -/
structure DF where
  columns : List String
  rows : List (List String)
deriving DecidableEq

/-- The DataFrame() constant the loader binds before reading any file. -/
def DF.emptyDF : DF := ⟨[], []⟩

/-- pandas DataFrame.empty: no rows (or no columns at all). -/
def dfEmpty (df : DF) : Bool :=
  df.rows.isEmpty || df.columns.isEmpty

/-- Index of a column label in a label list (first occurrence). -/
def colIdx (c : String) : List String → Option Nat
  | [] => none
  | x :: xs => if x == c then some 0 else (colIdx c xs).map (· + 1)

/-- The values of one column of a DataFrame (empty when the label is absent;
all uses are guarded by a label-presence test, as in the source). -/
def DF.colValues (df : DF) (c : String) : List String :=
  match colIdx c df.columns with
  | none => []
  | some i => df.rows.map (fun r => r.getD i "")

/-- A DataFrame is rectangular when every row has exactly one cell per
column label.  pandas guarantees this shape for loaded tables. -/
def DF.rect (df : DF) : Bool :=
  df.rows.all (fun r => r.length == df.columns.length)

-- ===================================================================
-- load_data (APP_Cosmeticos.py lines 65-126)
-- ===================================================================

/-- The parse outcome of each of the seven spreadsheet files read by
load_data: some table when pd.read_excel succeeds, none when it raises. -/
structure LoadInputs where
  annexII : Option DF
  annexIII : Option DF
  annexIV : Option DF
  annexV : Option DF
  annexVI : Option DF
  mercosur : Option DF
  casdb : Option DF

/-- df.columns = df.columns.str.strip(): trim every column label. -/
def stripCols (df : DF) : DF := ⟨df.columns.map pyStrip, df.rows⟩

/-- The write locals()[var] = df of load_data (line 103).  In CPython,
locals() inside a function returns a snapshot dictionary; writing into that
dictionary does not rebind the function local named var, so the local keeps
its current value.  The parsed table is passed and discarded. -/
def localsWrite (current : DF) (_parsed : Option DF) : DF := current

/-- cas_db.rename(columns={"INCI name": "Ingredient"}) guarded by the
membership test of line 120. -/
def renameINCI (df : DF) : DF :=
  if "INCI name" ∈ df.columns then
    ⟨df.columns.map (fun c => if c == "INCI name" then "Ingredient" else c), df.rows⟩
  else df

/-- The tuple of tables returned by load_data. -/
structure LoadedData where
  annex_ii : DF
  annex_iii : DF
  annex_iv : DF
  annex_v : DF
  annex_vi : DF
  mercosur : DF
  cas_db : DF

/-- load_data: every local is first bound to an empty DataFrame (lines 80-81).
Annex II, MERCOSUR and the CAS base are loaded with a direct assignment inside
try/except (a parse failure leaves the empty binding).  Annex III to VI are
loaded in a loop whose assignment goes through locals()[var] (lines 94-106),
which does not rebind the locals, so those four stay empty whatever the parse
outcome.  The info_carga log strings are presentation only and are not
modelled. -/
def load_data (inp : LoadInputs) : LoadedData :=
  let annex_ii := match inp.annexII with
    | some df => stripCols df
    | none => DF.emptyDF
  let annex_iii := localsWrite DF.emptyDF (inp.annexIII.map stripCols)
  let annex_iv := localsWrite DF.emptyDF (inp.annexIV.map stripCols)
  let annex_v := localsWrite DF.emptyDF (inp.annexV.map stripCols)
  let annex_vi := localsWrite DF.emptyDF (inp.annexVI.map stripCols)
  let mercosur := match inp.mercosur with
    | some df => stripCols df
    | none => DF.emptyDF
  let cas_db := match inp.casdb with
    | some df => renameINCI (stripCols df)
    | none => DF.emptyDF
  ⟨annex_ii, annex_iii, annex_iv, annex_v, annex_vi, mercosur, cas_db⟩

/-- The annex_data dictionary built from the loaded tables (lines 138-145). -/
def annexDataOf (l : LoadedData) : List (String × DF) :=
  [("Annex II", l.annex_ii), ("Annex III", l.annex_iii),
   ("Annex IV", l.annex_iv), ("Annex V", l.annex_v),
   ("Annex VI", l.annex_vi), ("MERCOSUR Prohibidas", l.mercosur)]

-- ===================================================================
-- buscar_cas_en_restricciones (APP_Cosmeticos.py lines 414-515)
-- ===================================================================

/-- One recorded hit: the annex name and the matched rows (the dictionary
appended at lines 438-441, 458-461 and 498-501). -/
structure AnnexHit where
  nombre : String
  data : DF
deriving DecidableEq

/-- The per-CAS result dictionary: the encontrado flag and the anexos list. -/
structure CasResult where
  encontrado : Bool
  anexos : List AnnexHit
deriving DecidableEq

/-- Rows of a DataFrame whose value in the named column contains the pattern,
df[df[col].astype(str).str.contains(pat, case=False, na=False)] (lines 430,
491).  The pattern is compiled once, so an invalid pattern raises before any
row is inspected, even on an empty table. -/
def filterContains (df : DF) (c : String) (pat : String) : Except String DF :=
  match parsePat (pyLower pat).data 0 with
  | .error e => .error e
  | .ok ps =>
    match colIdx c df.columns with
    | none => .ok ⟨df.columns, []⟩
    | some i => .ok ⟨df.columns, df.rows.filter (fun r => searchR ps (pyLower (r.getD i "")).data)⟩

/-- Column labels whose lower-cased form contains cas (line 481). -/
def casColumns (df : DF) : List String :=
  df.columns.filter (fun c => litContains "cas" (pyLower c))

/-- Scan the CAS-candidate columns of one annex in order; the first column
with at least one matching row wins (lines 486-503). -/
def searchCols (df : DF) (cas : String) : List String → Except String (Option DF)
  | [] => .ok none
  | c :: rest =>
    match filterContains df c cas with
    | .error e => .error e
    | .ok m => if m.rows.isEmpty then searchCols df cas rest else .ok (some m)

/-- Scan the annexes in priority order (lines 476-507).  An empty table and a
table without CAS-candidate columns are skipped.  After the first annex with a
match the scan stops: the source breaks out of the annex loop as soon as
encontrado_en_alguno is set (line 506-507). -/
def searchAnnexes (cas : String) : List (String × DF) → Except String (Option AnnexHit)
  | [] => .ok none
  | (nm, df) :: rest =>
    if dfEmpty df then searchAnnexes cas rest
    else if (casColumns df).isEmpty then searchAnnexes cas rest
    else
      match searchCols df cas (casColumns df) with
      | .error e => .error e
      | .ok (some m) => .ok (some ⟨nm, m⟩)
      | .ok none => searchAnnexes cas rest

/-- The general search over all annexes for one CAS number (lines 470-510). -/
def generalSearch (annexData : List (String × DF)) (cas : String) : Except String CasResult :=
  match searchAnnexes cas annexData with
  | .error e => .error e
  | .ok (some hit) => .ok ⟨true, [hit]⟩
  | .ok none => .ok ⟨false, []⟩

/-- The manual row-by-row scan of the special case (lines 449-465): the first
row of Annex II whose stripped CAS Number cell contains 51-84-3, equals 51843,
or contains 51-84-3 (the first and third disjuncts of line 452 coincide
because cas_number is the literal 51-84-3 inside this branch). -/
def rowBySearch (annex_ii : DF) : Option (List String) :=
  match colIdx "CAS Number" annex_ii.columns with
  | none => none
  | some i =>
    annex_ii.rows.find? (fun r =>
      let v := pyStrip (r.getD i "")
      litContains "51-84-3" v || v == "51843" || litContains "51-84-3" v)

/-- Search one CAS number (the body of the loop of lines 417-513).  The query
51-84-3 is special-cased: when Annex II has a CAS Number column it is searched
first by containment, then row by row, and a hit there records only Annex II
and skips the general search (the continue statements of lines 442 and 468);
otherwise the general search over annex_data runs. -/
def searchOne (annex_ii : DF) (annexData : List (String × DF)) (cas : String) :
    Except String CasResult :=
  if cas = "51-84-3" ∧ "CAS Number" ∈ annex_ii.columns then
    match filterContains annex_ii "CAS Number" cas with
    | .error e => .error e
    | .ok m =>
      if m.rows.isEmpty then
        match rowBySearch annex_ii with
        | some r => .ok ⟨true, [⟨"Annex II", ⟨annex_ii.columns, [r]⟩⟩]⟩
        | none => generalSearch annexData cas
      else .ok ⟨true, [⟨"Annex II", m⟩]⟩
  else generalSearch annexData cas

/-- Sequential effectful map: the Python for loop with exception
propagation. -/
def mapE (f : α → Except String β) : List α → Except String (List β)
  | [] => .ok []
  | a :: as =>
    match f a with
    | .error e => .error e
    | .ok b =>
      match mapE f as with
      | .error e => .error e
      | .ok bs => .ok (b :: bs)

/-- buscar_cas_en_restricciones: one result per element of cas_list, keyed by
the query (the resultados dictionary is modelled as an association list in
input order; duplicate queries would produce identical values).  The
mostrar_info branches only emit UI text and are not modelled. -/
def buscar_cas_en_restricciones (annex_ii : DF) (annexData : List (String × DF))
    (cas_list : List String) : Except String (List (String × CasResult)) :=
  mapE (fun c =>
    match searchOne annex_ii annexData c with
    | .error e => .error e
    | .ok r => .ok (c, r)) cas_list

-- ===================================================================
-- buscar_ingredientes_por_nombre (APP_Cosmeticos.py lines 520-572)
-- ===================================================================

/-- The name column of the CAS base: Ingredient if present, else Name, else
none (lines 524-528). -/
def nameColumn (cas_db : DF) : Option String :=
  if "Ingredient" ∈ cas_db.columns then some "Ingredient"
  else if "Name" ∈ cas_db.columns then some "Name"
  else none

/-- Exact-mode row predicate (line 538): the cell, lower-cased then stripped,
equals the query, lower-cased then stripped. -/
def rowMatchesExact (cell q : String) : Bool :=
  pyStrip (pyLower cell) == pyStrip (pyLower q)

/-- Fuzzy-mode row predicate (line 554): case-insensitive containment of the
query in the cell, with the query interpreted as a regular expression by
str.contains. -/
def rowMatchesFuzzy (cell q : String) : Except String Bool :=
  pyContains q cell

/-- The not-found row emitted for an unmatched query (lines 542-546 and
562-566). -/
def notFoundDF (col ing : String) : DF :=
  ⟨["Búsqueda", col, "Resultado"], [[ing, ing, "No encontrado"]]⟩

/-- df_ing["Búsqueda"] = ing: pandas overwrites an existing column of that
label and otherwise appends a new one at the end. -/
def withBusqueda (df : DF) (ing : String) : DF :=
  match colIdx "Búsqueda" df.columns with
  | some i => ⟨df.columns, df.rows.map (fun r => r.set i ing)⟩
  | none => ⟨df.columns ++ ["Búsqueda"], df.rows.map (fun r => r ++ [ing])⟩

/-- Resolve one query against the registry (the loop body of lines 535-567).
In exact mode the rows are filtered with rowMatchesExact; in fuzzy mode the
query is compiled once and searched in every cell.  An empty match set yields
the explicit not-found row, a nonempty one yields the matched rows tagged with
the query. -/
def resolveOne (cas_db : DF) (col : String) (exact : Bool) (ing : String) :
    Except String DF :=
  if exact then
    match colIdx col cas_db.columns with
    | none => .ok (notFoundDF col ing)
    | some i =>
      let matched := cas_db.rows.filter (fun r => rowMatchesExact (r.getD i "") ing)
      if matched.isEmpty then .ok (notFoundDF col ing)
      else .ok (withBusqueda ⟨cas_db.columns, matched⟩ ing)
  else
    match parsePat (pyLower ing).data 0 with
    | .error e => .error e
    | .ok ps =>
      match colIdx col cas_db.columns with
      | none => .ok (notFoundDF col ing)
      | some i =>
        let matched := cas_db.rows.filter (fun r => searchR ps (pyLower (r.getD i "")).data)
        if matched.isEmpty then .ok (notFoundDF col ing)
        else .ok (withBusqueda ⟨cas_db.columns, matched⟩ ing)

/-- buscar_ingredientes_por_nombre: the list of per-query frames appended to
resultados_formula (the source finally concatenates them; the per-query list
is the faithful carrier of the one-record-per-query contract).  When the
registry has no detectable name column the source shows an error and returns
an empty DataFrame, modelled as the empty list. -/
def buscar_ingredientes_por_nombre (cas_db : DF) (ings : List String) (exact : Bool) :
    Except String (List DF) :=
  match nameColumn cas_db with
  | none => .ok []
  | some col => mapE (resolveOne cas_db col exact) ings

/-- The Búsqueda column of a result frame carries the query in every row. -/
def busquedaAll (df : DF) (ing : String) : Bool :=
  (df.colValues "Búsqueda").all (fun v => v == ing)

-- ===================================================================
-- PubChem client (APP_Cosmeticos.py lines 295-384)
-- ===================================================================

/-- Outcome of one HTTP request: a raised exception (network error, bad
payload while decoding) or a response with a status code and a decoded
body. -/
inductive HttpOutcome (α : Type)
  | exn (msg : String)
  | resp (status : Nat) (body : α)
deriving DecidableEq

/-- The property set fetched in step two; each field is the corresponding
key of PropertyTable.Properties[0], absent keys fall back to the literal
No disponible via dict.get. -/
structure PubProps where
  iupac : Option String
  formula : Option String
  weight : Option String
  inchikey : Option String
  smiles : Option String
deriving DecidableEq

/-- The three requests issued for one name query, in program order:
the name-to-CID lookup, the property fetch, the synonym fetch.
Search body: the CID list when IdentifierList.CID is present, none when a
key is missing.  Info body: the properties when
PropertyTable.Properties[0] exists, none when that access would raise.
Synonym body: the Information array (each entry its Synonym list, absent
Synonym defaulting to the empty list), none when a key is missing. -/
structure PubchemEnv where
  search : HttpOutcome (Option (List Nat))
  info : HttpOutcome (Option PubProps)
  syns : HttpOutcome (Option (List (List String)))

/-- The dictionary returned by buscar_ingrediente_en_pubchem; every key that
is present only on some paths is an Option. -/
structure PubchemRecord where
  encontrado : Bool
  cid : Option Nat
  input : Option String
  nombre_iupac : Option String
  formula : Option String
  peso_molecular : Option String
  inchikey : Option String
  smiles : Option String
  sinonimos : Option (List String)
  cas_number : Option String
  url : Option String
  error : Option String
  mensaje : Option String
deriving DecidableEq

/-- The PubChem compound URL for a CID. -/
def urlOf (cid : Nat) : String :=
  "https://pubchem.ncbi.nlm.nih.gov/compound/" ++ toString cid

/-- The not-found dictionary (lines 304-320 and 378-384): no cid, no url. -/
def notFoundRecord (inputv : Option String) (err msg : String) : PubchemRecord :=
  ⟨false, none, inputv, none, none, none, none, none, none, none, none, some err, some msg⟩

/-- The partial dictionary returned when the property fetch answers with a
non-200 status (lines 329-336): the cid and the reference url are kept. -/
def partialRecord (inputv : Option String) (cid : Nat) (err : String) : PubchemRecord :=
  ⟨true, some cid, inputv, none, none, none, none, none, none, none, some (urlOf cid), some err, none⟩

/-- The CAS pattern of line 357, (?:CAS[ -]+)?(\d{1,7}-\d{2}-\d{1}), matched
at one position: one to seven digits, a hyphen, two digits, a hyphen, one
digit; the returned value is the captured digit group. -/
def casDigitsAt (cs : List Char) : Option String :=
  let ds := cs.takeWhile isDigit
  if ds.isEmpty || ds.length > 7 then none
  else
    match cs.drop ds.length with
    | '-' :: a :: b :: '-' :: c :: _ =>
      if isDigit a && isDigit b && isDigit c then
        some (String.mk (ds ++ ['-', a, b, '-', c]))
      else none
    | _ => none

/-- One position of the CAS pattern including the optional CAS label prefix:
the literal CAS followed by at least one space or hyphen, then the digit
group; when the prefixed alternative fails the unprefixed one is tried at the
same position, exactly as the optional group of the regex backtracks. -/
def casMatchAt (cs : List Char) : Option String :=
  match cs with
  | 'C' :: 'A' :: 'S' :: rest =>
    let seps := rest.takeWhile (fun c => c == ' ' || c == '-')
    if seps.isEmpty then casDigitsAt cs
    else
      match casDigitsAt (rest.drop seps.length) with
      | some d => some d
      | none => casDigitsAt cs
  | _ => casDigitsAt cs

/-- re.search of the CAS pattern: leftmost position wins. -/
def casSearch : List Char → Option String
  | [] => none
  | c :: rest =>
    match casMatchAt (c :: rest) with
    | some d => some d
    | none => casSearch rest

/-- The synonym scan of lines 358-362: first synonym with a match wins, its
captured digit group is the extracted CAS number; no match leaves it absent. -/
def extractCas : List String → Option String
  | [] => none
  | syn :: rest =>
    match casSearch syn.data with
    | some d => some d
    | none => extractCas rest

/-- The success dictionary of lines 364-376. -/
def fullRecord (nombre : String) (cid : Nat) (props : PubProps)
    (syns : List String) (cas : Option String) : PubchemRecord :=
  ⟨true, some cid, some nombre,
   some (props.iupac.getD "No disponible"),
   some (props.formula.getD "No disponible"),
   some (props.weight.getD "No disponible"),
   some (props.inchikey.getD "No disponible"),
   some (props.smiles.getD "No disponible"),
   some syns, cas, some (urlOf cid), none, none⟩

/-- The body of the try block of buscar_ingrediente_en_pubchem (lines
299-376); an error value is an exception reaching the outer except. -/
def pubchemInner (env : PubchemEnv) (nombre : String) : Except String PubchemRecord :=
  match env.search with
  | .exn e => .error e
  | .resp st body =>
    if st ≠ 200 then
      .ok (notFoundRecord (some nombre)
        ("Error en la búsqueda: Código " ++ toString st)
        ("No se encontró " ++ nombre ++ " en PubChem"))
    else
      match body with
      | none =>
        .ok (notFoundRecord (some nombre) "No se encontró un CID válido"
          ("PubChem no tiene registros para " ++ nombre))
      | some [] =>
        .ok (notFoundRecord (some nombre) "No se encontró un CID válido"
          ("PubChem no tiene registros para " ++ nombre))
      | some (cid :: _) =>
        match env.info with
        | .exn e => .error e
        | .resp st2 body2 =>
          if st2 ≠ 200 then
            .ok (partialRecord (some nombre) cid
              ("Error obteniendo detalles: Código " ++ toString st2))
          else
            match body2 with
            | none => .error "KeyError: PropertyTable"
            | some props =>
              match env.syns with
              | .exn e => .error e
              | .resp st3 body3 =>
                let synsE : Except String (List String) :=
                  if st3 = 200 then
                    match body3 with
                    | none => .ok []
                    | some [] => .error "IndexError: list index out of range"
                    | some (first :: _) => .ok first
                  else .ok []
                match synsE with
                | .error e => .error e
                | .ok syns0 =>
                  let syns := syns0.take 10
                  let cas := if syns.isEmpty then none else extractCas syns
                  .ok (fullRecord nombre cid props syns cas)

/-- buscar_ingrediente_en_pubchem: the try body, with any exception caught by
the outer except of lines 378-384, which returns a fresh not-found dictionary
that no longer holds the cid.  The source message quotes the name; the quotes
are left out of the modelled message text. -/
def buscar_ingrediente_en_pubchem (env : PubchemEnv) (nombre : String) : PubchemRecord :=
  match pubchemInner env nombre with
  | .ok r => r
  | .error e =>
    notFoundRecord (some nombre) e ("Error al conectar con PubChem para " ++ nombre)

-- ===================================================================
-- Source freshness tracker (scripts/check_annexes.py)
-- ===================================================================

/-- One spreadsheet cell as seen by extract_date_from_excel: a string, a
date-typed value (pandas Timestamp or anything with strftime), or any other
value (numbers, NaN), which both scan phases skip. -/
inductive XCell
  | str (v : String)
  | ts (d m y : Nat)
  | other
deriving DecidableEq

/-- A parsed spreadsheet, rows of cells. -/
abbrev Table := List (List XCell)

/-- The scan window of extract_date_from_excel: the first fifteen rows and
the first five columns (lines 349-350 and 365-366). -/
def window (t : Table) : Table :=
  (t.take 15).map (fun r => r.take 5)

/-- A date of the shape dd/mm/yyyy at the head of the character list; the
capture group (\d{2}/\d{2}/\d{4}) of the DATE_PATTERNS. -/
def dateAt : List Char → Option String
  | d1 :: d2 :: '/' :: m1 :: m2 :: '/' :: y1 :: y2 :: y3 :: y4 :: _ =>
    if [d1, d2, m1, m2, y1, y2, y3, y4].all isDigit then
      some (String.mk [d1, d2, '/', m1, m2, '/', y1, y2, y3, y4])
    else none
  | _ => none

/-- Remainder of the text after a literal, or none when the literal is not a
prefix of it. -/
def afterLit : List Char → List Char → Option (List Char)
  | [], cs => some cs
  | _ :: _, [] => none
  | l :: ls, c :: cs => if l == c then afterLit ls cs else none

/-- Try a position matcher at every position, leftmost match first. -/
def scanTails (f : List Char → Option String) : List Char → Option String
  | [] => f []
  | c :: rest =>
    match f (c :: rest) with
    | some d => some d
    | none => scanTails f rest

/-- Pattern Last update:\s*(date) at one position. -/
def p1At (cs : List Char) : Option String :=
  match afterLit "Last update:".data cs with
  | none => none
  | some r => dateAt (r.dropWhile isWS)

/-- Pattern Update[d]?:?\s*(date) at one position; the two optional pieces
backtrack as in re. -/
def p3At (cs : List Char) : Option String :=
  match afterLit "Update".data cs with
  | none => none
  | some r =>
    let step2 : List Char → Option String := fun r2 =>
      let step3 : List Char → Option String := fun r3 => dateAt (r3.dropWhile isWS)
      match r2 with
      | ':' :: r3 =>
        match step3 r3 with
        | some d => some d
        | none => step3 r2
      | _ => step3 r2
    match r with
    | 'd' :: r2 =>
      match step2 r2 with
      | some d => some d
      | none => step2 r
    | _ => step2 r

/-- Pattern Date:?\s*(date) at one position. -/
def p4At (cs : List Char) : Option String :=
  match afterLit "Date".data cs with
  | none => none
  | some r =>
    let step3 : List Char → Option String := fun r3 => dateAt (r3.dropWhile isWS)
    match r with
    | ':' :: r3 =>
      match step3 r3 with
      | some d => some d
      | none => step3 r
    | _ => step3 r

/-- Try the four DATE_PATTERNS of lines 22-27 on one string cell, in order;
the second pattern is the bare date. -/
def tryPatterns (v : String) : Option String :=
  match scanTails p1At v.data with
  | some d => some d
  | none =>
    match scanTails dateAt v.data with
    | some d => some d
    | none =>
      match scanTails p3At v.data with
      | some d => some d
      | none => scanTails p4At v.data

/-- First scan phase (lines 349-362): every string cell of the window is
tried against the patterns. -/
def phaseA (t : Table) : Option String :=
  (window t).findSome? (fun row =>
    row.findSome? (fun c =>
      match c with
      | .str v => tryPatterns v
      | _ => none))

/-- Zero-padded two-digit field of strftime. -/
def pad2 (n : Nat) : String :=
  if n < 10 then "0" ++ toString n else toString n

/-- Zero-padded four-digit year field of strftime. -/
def pad4 (n : Nat) : String :=
  (if n < 10 then "000" else if n < 100 then "00" else if n < 1000 then "0" else "")
    ++ toString n

/-- Second scan phase (lines 364-374): the first date-typed cell of the
window, formatted %d/%m/%Y. -/
def phaseB (t : Table) : Option String :=
  (window t).findSome? (fun row =>
    row.findSome? (fun c =>
      match c with
      | .ts d m y => some (pad2 d ++ "/" ++ pad2 m ++ "/" ++ pad4 y)
      | _ => none))

/-- extract_date_from_excel on a parsed table: the pattern scan first, then
the date-typed-cell scan; none when neither finds a date (line 376-377).  The
function receives only the file content parsed as a table; no response header
and no content hash enter it. -/
def extract_date_from_excel (t : Table) : Option String :=
  match phaseA t with
  | some d => some d
  | none => phaseB t

/-- The per-annex step of main (lines 441-489): the download outcome is none
when no file could be fetched, some table when it parsed.  The returned pair
is the new persisted marker for the annex and whether the annex was treated
as changed (its file staged for commit).  When no date can be extracted, or
nothing was downloaded, the previous marker is kept and no change is
signalled. -/
def stepAnnex (old : Option String) (dl : Option Table) : Option String × Bool :=
  match dl with
  | none => (old, false)
  | some t =>
    match extract_date_from_excel t with
    | none => (old, false)
    | some d => (some d, old != some d)

-- ===================================================================
-- Support lemmas
-- ===================================================================

/-- A pattern character that the modelled regex fragment treats literally:
anything except the dot and the parentheses, the only characters parsePat
gives special meaning to.  This characterises the model parser, not Python. -/
def isPlain (c : Char) : Bool :=
  !(c == '.' || c == '(' || c == ')')

/-- A pattern character that the Python regex engine itself treats literally:
none of the fourteen special characters of re, namely dot, the parentheses,
dollar, circumflex, asterisk, plus, question mark, the square brackets, the
backslash, the braces and the vertical bar (written by their character codes
46, 40, 41, 36, 94, 42, 43, 63, 91, 93, 92, 123, 125, 124).  On a pattern of
such characters re.compile yields a plain literal sequence, so the modelled
matcher agrees with re.search there; theorems quantifying over patterns are
guarded with this predicate. -/
def isRegexPlain (c : Char) : Bool :=
  !(c.toNat == 46 || c.toNat == 40 || c.toNat == 41 || c.toNat == 36 ||
    c.toNat == 94 || c.toNat == 42 || c.toNat == 43 || c.toNat == 63 ||
    c.toNat == 91 || c.toNat == 93 || c.toNat == 92 || c.toNat == 123 ||
    c.toNat == 125 || c.toNat == 124)

theorem all_plain_of_regex_plain {l : List Char} (h : l.all isRegexPlain = true) :
    l.all isPlain = true := by
  rw [List.all_eq_true] at h ⊢
  intro c hc
  have hr := h c hc
  by_contra hne
  simp [isPlain] at hne
  by_cases h1 : c = '.'
  · subst h1
    exact absurd hr (by decide)
  · by_cases h2 : c = '('
    · subst h2
      exact absurd hr (by decide)
    · have h3 := hne h1 h2
      subst h3
      exact absurd hr (by decide)

theorem mapE_ok (da : α) (db : β) {f : α → Except String β} :
    ∀ {xs : List α} {ys : List β}, mapE f xs = .ok ys →
      ys.length = xs.length ∧
      ∀ i, i < xs.length → f (xs.getD i da) = .ok (ys.getD i db) := by
  intro xs
  induction xs with
  | nil =>
    intro ys h
    simp [mapE] at h
    subst h
    exact ⟨rfl, fun i hi => absurd hi (by simp)⟩
  | cons a as ih =>
    intro ys h
    simp only [mapE] at h
    cases hfa : f a with
    | error e => rw [hfa] at h; exact absurd h (by simp)
    | ok b =>
      rw [hfa] at h
      cases hm : mapE f as with
      | error e => rw [hm] at h; exact absurd h (by simp)
      | ok bs =>
        rw [hm] at h
        simp at h
        subst h
        obtain ⟨hlen, hpt⟩ := ih hm
        refine ⟨by simp [hlen], ?_⟩
        intro i hi
        cases i with
        | zero => simpa using hfa
        | succ j =>
          simp only [List.getD_cons_succ]
          exact hpt j (Nat.lt_of_succ_lt_succ hi)

theorem colIdx_lt {c : String} : ∀ {l : List String} {i : Nat},
    colIdx c l = some i → i < l.length := by
  intro l
  induction l with
  | nil => intro i h; simp [colIdx] at h
  | cons x xs ih =>
    intro i h
    simp only [colIdx] at h
    by_cases hx : x == c
    · rw [if_pos hx] at h
      simp at h
      subst h
      simp
    · rw [if_neg hx] at h
      rw [Option.map_eq_some'] at h
      obtain ⟨j, hj, hij⟩ := h
      have := ih hj
      simp
      omega

theorem colIdx_none_iff {c : String} : ∀ {l : List String},
    colIdx c l = none ↔ c ∉ l := by
  intro l
  induction l with
  | nil => simp [colIdx]
  | cons x xs ih =>
    simp only [colIdx]
    by_cases hx : x == c
    · rw [if_pos hx]
      have : x = c := by simpa using hx
      subst this
      simp
    · rw [if_neg hx]
      have hne : x ≠ c := by simpa using hx
      simp [Option.map_eq_none', ih, hne, Ne.symm hne]

theorem colIdx_append_self {c : String} : ∀ {l : List String},
    c ∉ l → colIdx c (l ++ [c]) = some l.length := by
  intro l
  induction l with
  | nil => intro _; simp [colIdx]
  | cons x xs ih =>
    intro hmem
    have hx : ¬(x == c) := by
      simp only [List.mem_cons, not_or] at hmem
      simpa using (Ne.symm hmem.1)
    have hxs : c ∉ xs := by
      simp only [List.mem_cons, not_or] at hmem
      exact hmem.2
    rw [List.cons_append]
    show (if x == c then some 0 else (colIdx c (xs ++ [c])).map (· + 1)) = _
    rw [if_neg hx, ih hxs, Option.map_some']
    simp

theorem getD_set_self {α : Type} {a d : α} : ∀ {l : List α} {i : Nat},
    i < l.length → (l.set i a).getD i d = a := by
  intro l
  induction l with
  | nil => intro i h; simp at h
  | cons x xs ih =>
    intro i h
    cases i with
    | zero => simp
    | succ j =>
      simp only [List.set_cons_succ, List.getD_cons_succ]
      refine ih ?_
      simp only [List.length_cons] at h
      omega

theorem getD_append_len {α : Type} {a d : α} : ∀ {l : List α},
    (l ++ [a]).getD l.length d = a := by
  intro l
  induction l with
  | nil => simp
  | cons x xs ih => simp only [List.cons_append, List.length_cons, List.getD_cons_succ]; exact ih

theorem dropWhile_pre {α : Type} (p : α → Bool) :
    ∀ (l : List α), ∃ s, s ++ l.dropWhile p = l := by
  intro l
  induction l with
  | nil => exact ⟨[], rfl⟩
  | cons c cs ih =>
    by_cases h : p c
    · obtain ⟨s, hs⟩ := ih
      refine ⟨c :: s, ?_⟩
      simp [List.dropWhile, h, hs]
    · refine ⟨[], ?_⟩
      simp [List.dropWhile, h]

theorem trim_parts (l : List Char) : ∃ s t, s ++ trimL l ++ t = l := by
  obtain ⟨s, hs⟩ := dropWhile_pre isWS l
  obtain ⟨u, hu⟩ := dropWhile_pre isWS (l.dropWhile isWS).reverse
  refine ⟨s, u.reverse, ?_⟩
  have hm : l.dropWhile isWS = trimL l ++ u.reverse := by
    have h2 := congrArg List.reverse hu
    simp only [List.reverse_append, List.reverse_reverse] at h2
    rw [trimL]
    exact h2.symm
  rw [List.append_assoc, ← hm, hs]

theorem startsWithL_self_append : ∀ (x t : List Char), startsWithL x (x ++ t) = true := by
  intro x
  induction x with
  | nil =>
    intro t
    cases t <;> simp [startsWithL]
  | cons p ps ih =>
    intro t
    simp [startsWithL, ih t]

theorem isSubSeg_of_parts : ∀ (s x t : List Char), isSubSeg x (s ++ (x ++ t)) = true := by
  intro s
  induction s with
  | nil =>
    intro x t
    cases hx : x ++ t with
    | nil => simp only [List.nil_append, hx, isSubSeg]; simp [List.append_eq_nil.mp hx]
    | cons c rest =>
      simp only [List.nil_append, hx, isSubSeg]
      rw [← hx, startsWithL_self_append]
      simp
  | cons a s ih =>
    intro x t
    show (startsWithL x (a :: (s ++ (x ++ t))) || isSubSeg x (s ++ (x ++ t))) = true
    rw [ih x t]
    simp

theorem matchAt_lits : ∀ (l cs : List Char), matchAt (l.map RAtom.lit) cs = startsWithL l cs := by
  intro l
  induction l with
  | nil =>
    intro cs
    cases cs <;> simp [matchAt, startsWithL]
  | cons p ps ih =>
    intro cs
    cases cs with
    | nil => simp [matchAt, startsWithL]
    | cons x xs => simp [matchAt, startsWithL, ih xs]

theorem searchR_lits (l : List Char) : ∀ (cs : List Char),
    searchR (l.map RAtom.lit) cs = isSubSeg l cs := by
  intro cs
  induction cs with
  | nil =>
    simp only [searchR, isSubSeg, matchAt_lits]
    cases l <;> simp [startsWithL]
  | cons c rest ih =>
    simp only [searchR, isSubSeg, matchAt_lits, ih]

theorem parsePat_lits : ∀ {l : List Char}, l.all isPlain = true →
    parsePat l 0 = .ok (l.map RAtom.lit) := by
  intro l
  induction l with
  | nil => intro _; rfl
  | cons c cs ih =>
    intro h
    simp only [List.all_cons, Bool.and_eq_true] at h
    obtain ⟨hc, hcs⟩ := h
    simp only [isPlain, Bool.not_eq_true', Bool.or_eq_false_iff, beq_eq_false_iff_ne] at hc
    obtain ⟨⟨h1, h2⟩, h3⟩ := hc
    simp only [parsePat, if_neg h2, if_neg h3, if_neg h1, ih hcs, List.map_cons]
    rfl

theorem searchAnnexes_src {cas : String} : ∀ {l : List (String × DF)} {hit : AnnexHit},
    searchAnnexes cas l = .ok (some hit) →
    ∃ nm df, (nm, df) ∈ l ∧ hit.nombre = nm ∧ dfEmpty df = false := by
  intro l
  induction l with
  | nil => intro hit h; simp [searchAnnexes] at h
  | cons p rest ih =>
    intro hit h
    obtain ⟨nm, df⟩ := p
    simp only [searchAnnexes] at h
    by_cases h1 : dfEmpty df
    · rw [if_pos h1] at h
      obtain ⟨nm2, df2, hmem, hn, he⟩ := ih h
      exact ⟨nm2, df2, List.mem_cons_of_mem _ hmem, hn, he⟩
    · rw [if_neg h1] at h
      by_cases h2 : (casColumns df).isEmpty
      · rw [if_pos h2] at h
        obtain ⟨nm2, df2, hmem, hn, he⟩ := ih h
        exact ⟨nm2, df2, List.mem_cons_of_mem _ hmem, hn, he⟩
      · rw [if_neg h2] at h
        cases hsc : searchCols df cas (casColumns df) with
        | error e => rw [hsc] at h; simp at h
        | ok o =>
          rw [hsc] at h
          cases o with
          | some m =>
            simp at h
            subst h
            exact ⟨nm, df, List.mem_cons_self _ _, rfl, by simpa using h1⟩
          | none =>
            obtain ⟨nm2, df2, hmem, hn, he⟩ := ih h
            exact ⟨nm2, df2, List.mem_cons_of_mem _ hmem, hn, he⟩

theorem generalSearch_shape {ad : List (String × DF)} {cas : String} {res : CasResult}
    (h : generalSearch ad cas = .ok res) :
    res.anexos = [] ∨
      ∃ hit, res.anexos = [hit] ∧ searchAnnexes cas ad = .ok (some hit) := by
  unfold generalSearch at h
  cases hsa : searchAnnexes cas ad with
  | error e => rw [hsa] at h; simp at h
  | ok o =>
    rw [hsa] at h
    cases o with
    | some hit =>
      simp at h
      subst h
      exact Or.inr ⟨hit, rfl, rfl⟩
    | none =>
      simp at h
      subst h
      exact Or.inl rfl

theorem searchOne_shape {a2 : DF} {ad : List (String × DF)} {cas : String} {res : CasResult}
    (h : searchOne a2 ad cas = .ok res) :
    res.anexos = [] ∨
      ∃ hit, res.anexos = [hit] ∧
        (hit.nombre = "Annex II" ∨ searchAnnexes cas ad = .ok (some hit)) := by
  unfold searchOne at h
  split at h
  · split at h
    · simp at h
    · split at h
      · split at h
        · simp at h
          subst h
          exact Or.inr ⟨_, rfl, Or.inl rfl⟩
        · rcases generalSearch_shape h with h0 | ⟨hit, ha, hs⟩
          · exact Or.inl h0
          · exact Or.inr ⟨hit, ha, Or.inr hs⟩
      · simp at h
        subst h
        exact Or.inr ⟨_, rfl, Or.inl rfl⟩
  · rcases generalSearch_shape h with h0 | ⟨hit, ha, hs⟩
    · exact Or.inl h0
    · exact Or.inr ⟨hit, ha, Or.inr hs⟩

theorem load_data_locals (inp : LoadInputs) :
    (load_data inp).annex_iii = DF.emptyDF ∧ (load_data inp).annex_iv = DF.emptyDF ∧
    (load_data inp).annex_v = DF.emptyDF ∧ (load_data inp).annex_vi = DF.emptyDF :=
  ⟨rfl, rfl, rfl, rfl⟩

theorem notFoundDF_record (col ing : String) :
    (notFoundDF col ing).rows ≠ [] ∧ busquedaAll (notFoundDF col ing) ing = true := by
  constructor
  · simp [notFoundDF]
  · simp [busquedaAll, notFoundDF, DF.colValues, colIdx]

theorem withBusqueda_record {db : DF} {matched : List (List String)} {ing : String}
    (hrect : db.rect = true)
    (hsub : ∀ r ∈ matched, r ∈ db.rows) (hne : matched ≠ []) :
    (withBusqueda ⟨db.columns, matched⟩ ing).rows ≠ [] ∧
    busquedaAll (withBusqueda ⟨db.columns, matched⟩ ing) ing = true := by
  have hlen : ∀ r ∈ matched, r.length = db.columns.length := by
    intro r hr
    simp only [DF.rect, List.all_eq_true] at hrect
    have := hrect r (hsub r hr)
    simpa using this
  unfold withBusqueda
  cases hci : colIdx "Búsqueda" db.columns with
  | some i =>
    have hi : i < db.columns.length := colIdx_lt hci
    constructor
    · simpa using hne
    · simp only [busquedaAll, DF.colValues, hci, List.all_eq_true, List.map_map, List.mem_map]
      rintro v ⟨r, hr, hv⟩
      subst hv
      have hlt : i < r.length := by rw [hlen r hr]; exact hi
      have hv2 := getD_set_self (l := r) (a := ing) (d := "") hlt
      simpa using hv2
  | none =>
    have hmem : "Búsqueda" ∉ db.columns := colIdx_none_iff.mp hci
    constructor
    · simpa using hne
    · simp only [busquedaAll, DF.colValues, colIdx_append_self hmem, List.all_eq_true,
        List.map_map, List.mem_map]
      rintro v ⟨r, hr, hv⟩
      subst hv
      have hv2 : (r ++ [ing]).getD r.length "" = ing := getD_append_len
      rw [hlen r hr] at hv2
      simpa using hv2

theorem resolveOne_record {db : DF} {col : String} {exact : Bool} {ing : String} {d : DF}
    (hrect : db.rect = true) (h : resolveOne db col exact ing = .ok d) :
    d.rows ≠ [] ∧ busquedaAll d ing = true := by
  unfold resolveOne at h
  dsimp only at h
  split at h
  · split at h
    · simp at h
      subst h
      exact notFoundDF_record col ing
    · split at h
      · simp at h
        subst h
        exact notFoundDF_record col ing
      · rename_i i hci hmne
        injection h with h
        subst h
        refine withBusqueda_record hrect ?_ ?_
        · intro r hr
          exact (List.mem_filter.mp hr).1
        · intro hnil
          rw [hnil] at hmne
          simp at hmne
  · split at h
    · simp at h
    · split at h
      · simp at h
        subst h
        exact notFoundDF_record col ing
      · split at h
        · simp at h
          subst h
          exact notFoundDF_record col ing
        · rename_i ps hps i hci hmne
          injection h with h
          subst h
          refine withBusqueda_record hrect ?_ ?_
          · intro r hr
            exact (List.mem_filter.mp hr).1
          · intro hnil
            rw [hnil] at hmne
            simp at hmne

-- ===================================================================
-- Claim theorems
-- ===================================================================

/-- C1: the tables returned by load_data for Annex III, Annex IV, Annex V and
Annex VI are the empty DataFrame regardless of whether their files parse,
because the loading loop assigns through locals()[var], which does not rebind
the function locals; consequently every source recorded by the cross-annex
search over the loaded annex_data is Annex II or MERCOSUR Prohibidas. -/
theorem claim_c1_annexes_stay_empty (inp : LoadInputs) (cas : String) (res : CasResult)
    (h : searchOne (load_data inp).annex_ii (annexDataOf (load_data inp)) cas = .ok res) :
    ((load_data inp).annex_iii = DF.emptyDF ∧ (load_data inp).annex_iv = DF.emptyDF ∧
     (load_data inp).annex_v = DF.emptyDF ∧ (load_data inp).annex_vi = DF.emptyDF) ∧
    res.anexos.all
      (fun hi => hi.nombre == "Annex II" || hi.nombre == "MERCOSUR Prohibidas") = true := by
  refine ⟨load_data_locals inp, ?_⟩
  rcases searchOne_shape h with h0 | ⟨hit, ha, hn⟩
  · rw [h0]
    rfl
  · rw [ha]
    rcases hn with hn | hs
    · simp [hn]
    · obtain ⟨nm, df, hmem, hname, hne⟩ := searchAnnexes_src hs
      obtain ⟨h3, h4, h5, h6⟩ := load_data_locals inp
      simp only [annexDataOf, List.mem_cons, List.not_mem_nil, or_false,
        Prod.mk.injEq] at hmem
      rcases hmem with ⟨hnm, hdf⟩ | ⟨hnm, hdf⟩ | ⟨hnm, hdf⟩ | ⟨hnm, hdf⟩ | ⟨hnm, hdf⟩ | ⟨hnm, hdf⟩
      · simp [hname, hnm]
      · rw [hdf, h3] at hne
        simp [dfEmpty, DF.emptyDF] at hne
      · rw [hdf, h4] at hne
        simp [dfEmpty, DF.emptyDF] at hne
      · rw [hdf, h5] at hne
        simp [dfEmpty, DF.emptyDF] at hne
      · rw [hdf, h6] at hne
        simp [dfEmpty, DF.emptyDF] at hne
      · simp [hname, hnm]

/-- The load input in which no file parses, used as the concrete witness. -/
def inpNone : LoadInputs := ⟨none, none, none, none, none, none, none⟩

/-- Witness for C1: with every parse failing, the search for 51-84-3 returns
no hit and the theorem applies. -/
theorem claim_c1_witness :
    ((load_data inpNone).annex_iii = DF.emptyDF ∧ (load_data inpNone).annex_iv = DF.emptyDF ∧
     (load_data inpNone).annex_v = DF.emptyDF ∧ (load_data inpNone).annex_vi = DF.emptyDF) ∧
    (CasResult.mk false []).anexos.all
      (fun hi => hi.nombre == "Annex II" || hi.nombre == "MERCOSUR Prohibidas") = true :=
  claim_c1_annexes_stay_empty inpNone "51-84-3" ⟨false, []⟩ rfl

/-- Annex II table of the C2 counterexample. -/
def c2AnnexII : DF := ⟨["CAS Number"], [["64-17-5"]]⟩

/-- MERCOSUR table of the C2 counterexample. -/
def c2Mercosur : DF := ⟨["CAS LIMPIO"], [["64-17-5"]]⟩

/-- Annex data of the C2 counterexample: the query matches in both sources. -/
def c2Data : List (String × DF) :=
  [("Annex II", c2AnnexII), ("MERCOSUR Prohibidas", c2Mercosur)]

/-- C2 counterexample: 64-17-5 matches in Annex II and in MERCOSUR, but the
search records only Annex II; the matching MERCOSUR source is absent from the
result, so the search does not continue to the remaining sources after the
first hit. -/
theorem claim_c2_counterexample :
    searchOne c2AnnexII c2Data "64-17-5" =
      .ok ⟨true, [⟨"Annex II", ⟨["CAS Number"], [["64-17-5"]]⟩⟩]⟩ ∧
    filterContains c2Mercosur "CAS LIMPIO" "64-17-5" =
      .ok ⟨["CAS LIMPIO"], [["64-17-5"]]⟩ :=
  ⟨rfl, rfl⟩

/-- C2 amended: after the first source with a match the search stops scanning
the remaining sources as well, so at most one source is ever recorded for a
CAS number. -/
theorem claim_c2_amended (a2 : DF) (ad : List (String × DF)) (cas : String)
    (res : CasResult) (h : searchOne a2 ad cas = .ok res) :
    res.anexos.length ≤ 1 := by
  rcases searchOne_shape h with h0 | ⟨hit, ha, _⟩
  · simp [h0]
  · simp [ha]

/-- Witness for C2 amended at the counterexample tables. -/
theorem claim_c2_witness :
    (CasResult.mk true [⟨"Annex II", ⟨["CAS Number"], [["64-17-5"]]⟩⟩]).anexos.length ≤ 1 :=
  claim_c2_amended c2AnnexII c2Data "64-17-5"
    ⟨true, [⟨"Annex II", ⟨["CAS Number"], [["64-17-5"]]⟩⟩]⟩ rfl

/-- The raw table of the C3 scenario: a placeholder header over a fallback
row holding the intended labels. -/
def c3Raw : DF :=
  ⟨["Unnamed: 0", "CAS Number"],
   [["Substance Name", "CAS Number"], ["Ethanol", "64-17-5"]]⟩

/-- C3 counterexample: the loader only trims the header labels; the
placeholder label survives, it is not replaced by the fallback-row cell. -/
theorem claim_c3_counterexample :
    (stripCols c3Raw).columns = ["Unnamed: 0", "CAS Number"] ∧
    (["Unnamed: 0", "CAS Number"] : List String) ≠ ["Substance Name", "CAS Number"] :=
  ⟨rfl, by decide⟩

/-- C3 amended: header normalization in load_data is exactly whitespace
trimming of each label; it never consults any row of the table, so no
fallback-row substitution of placeholder labels takes place. -/
theorem claim_c3_amended (cols : List String) (rows rows2 : List (List String)) :
    (stripCols ⟨cols, rows⟩).columns = cols.map pyStrip ∧
    (stripCols ⟨cols, rows⟩).columns = (stripCols ⟨cols, rows2⟩).columns :=
  ⟨rfl, rfl⟩

/-- C4 counterexample: the query with a leading space matches a registry cell
in exact mode, because both sides are stripped there, but fails in fuzzy mode,
where the raw query must occur inside the cell. -/
theorem claim_c4_counterexample :
    rowMatchesExact "Aqua" " Aqua" = true ∧ rowMatchesFuzzy "Aqua" " Aqua" = .ok false :=
  ⟨by decide, rfl⟩

/-- C4 amended: for a query whose case-folded form carries no surrounding
whitespace and contains none of the characters the Python regex engine
treats specially (so str.contains reads it as a literal), an exact match on a
cell implies a fuzzy match on the same cell. -/
theorem claim_c4_amended (cell q : String)
    (h1 : pyStrip (pyLower q) = pyLower q)
    (h2 : (pyLower q).data.all isRegexPlain = true)
    (hex : rowMatchesExact cell q = true) :
    rowMatchesFuzzy cell q = .ok true := by
  have heq : pyStrip (pyLower cell) = pyStrip (pyLower q) := by
    simpa [rowMatchesExact] using hex
  rw [h1] at heq
  have hdata : trimL (pyLower cell).data = (pyLower q).data := congrArg String.data heq
  obtain ⟨s, t, hst⟩ := trim_parts (pyLower cell).data
  rw [hdata] at hst
  have hsub : isSubSeg (pyLower q).data (pyLower cell).data = true := by
    rw [← hst, List.append_assoc]
    exact isSubSeg_of_parts s _ t
  have hall : (pyLower q).data.all isPlain = true := all_plain_of_regex_plain h2
  unfold rowMatchesFuzzy pyContains
  rw [parsePat_lits hall]
  simp only [Except.map]
  rw [searchR_lits, hsub]

/-- Witness for C4 amended: the trimmed query Aqua matched exactly against a
padded cell also matches fuzzily. -/
theorem claim_c4_witness : rowMatchesFuzzy " Aqua " "Aqua" = .ok true :=
  claim_c4_amended " Aqua " "Aqua" (by decide) (by decide) (by decide)

/-- Registry table of the C5 counterexample and witness. -/
def c5Db : DF := ⟨["Name"], [["Aqua"], ["Ethanol"]]⟩

/-- C5 counterexample: a fuzzy batch whose second query is an invalid pattern
aborts with an exception; no result list is emitted at all, so the batch does
not produce one record per query. -/
theorem claim_c5_counterexample :
    buscar_ingredientes_por_nombre c5Db ["Aqua", "("] false =
      .error "missing ), unterminated subpattern" :=
  rfl

/-- C5 amended: whenever the resolver returns a result list (always in exact
mode; in fuzzy mode whenever every query compiles), it holds exactly one
record per query, every record is non-empty, and every record carries its
originating query in the Búsqueda column. -/
theorem claim_c5_amended (db : DF) (ings : List String) (exact : Bool) (col : String)
    (res : List DF) (hrect : db.rect = true) (hcol : nameColumn db = some col)
    (h : buscar_ingredientes_por_nombre db ings exact = .ok res) :
    res.length = ings.length ∧
    ∀ i, i < ings.length →
      (res.getD i DF.emptyDF).rows ≠ [] ∧
      busquedaAll (res.getD i DF.emptyDF) (ings.getD i "") = true := by
  unfold buscar_ingredientes_por_nombre at h
  rw [hcol] at h
  obtain ⟨hlen, hpt⟩ := mapE_ok "" DF.emptyDF h
  refine ⟨hlen, ?_⟩
  intro i hi
  exact resolveOne_record hrect (hpt i hi)

/-- Witness for C5 amended: an exact batch of two queries, one matched and one
not, yields exactly two records. -/
theorem claim_c5_witness :
    ([⟨["Name", "Búsqueda"], [["Aqua", "Aqua"]]⟩, notFoundDF "Name" "Missing"] : List DF).length =
      (["Aqua", "Missing"] : List String).length :=
  (claim_c5_amended c5Db ["Aqua", "Missing"] true "Name"
    [⟨["Name", "Búsqueda"], [["Aqua", "Aqua"]]⟩, notFoundDF "Name" "Missing"]
    (by decide) rfl rfl).1

/-- A downloaded artifact without any date-shaped content. -/
def c6NoDate : Table := [[XCell.str "COSING"], [XCell.other], [XCell.str "Annex II, Prohibited list"]]

/-- A second, different artifact without any date-shaped content. -/
def c6NoDate2 : Table := [[XCell.str "completely different content"]]

/-- C6 counterexample: two different artifacts whose version cannot be
determined are both reported unchanged against the persisted marker; no
Last-Modified header and no content hash enter the comparison, so an unknown
version does collapse into an unchanged report. -/
theorem claim_c6_counterexample :
    extract_date_from_excel c6NoDate = none ∧
    extract_date_from_excel c6NoDate2 = none ∧
    stepAnnex (some "12/01/2024") (some c6NoDate) = (some "12/01/2024", false) ∧
    stepAnnex (some "12/01/2024") (some c6NoDate2) = (some "12/01/2024", false) ∧
    c6NoDate ≠ c6NoDate2 :=
  ⟨rfl, rfl, rfl, rfl, by decide⟩

/-- C6 amended: the tracker extracts a version marker only from date-shaped
content of the parsed table; when no date is found, or nothing was
downloaded, the previous marker is retained and the source is not treated as
changed. -/
theorem claim_c6_amended (old : Option String) (t : Table)
    (h : extract_date_from_excel t = none) :
    stepAnnex old (some t) = (old, false) ∧ stepAnnex old none = (old, false) := by
  constructor
  · simp only [stepAnnex, h]
  · rfl

/-- Witness for C6 amended at a concrete dateless artifact. -/
theorem claim_c6_witness :
    stepAnnex (some "31/12/2023") (some c6NoDate) = (some "31/12/2023", false) :=
  (claim_c6_amended (some "31/12/2023") c6NoDate rfl).1

/-- Environment of the C7 counterexample: the CID lookup succeeds, the
property fetch raises. -/
def c7Env : PubchemEnv :=
  ⟨.resp 200 (some [2244]), .exn "ConnectionError: timeout", .resp 200 none⟩

/-- C7 counterexample: after a successful step one, a step-two exception is
caught by the outer handler, which returns a not-found record without the
handle and without a reference link: the already-obtained handle is lost. -/
theorem claim_c7_counterexample :
    buscar_ingrediente_en_pubchem c7Env "aspirin" =
      notFoundRecord (some "aspirin") "ConnectionError: timeout"
        "Error al conectar con PubChem para aspirin" ∧
    (buscar_ingrediente_en_pubchem c7Env "aspirin").cid = none ∧
    (buscar_ingrediente_en_pubchem c7Env "aspirin").url = none :=
  ⟨rfl, rfl, rfl⟩

/-- C7 amended: only when step two fails with a non-200 response does the
returned record keep the handle and the reference link; a step-two exception
instead discards them. -/
theorem claim_c7_amended (env : PubchemEnv) (nombre : String) (cid : Nat) (cids : List Nat)
    (st2 : Nat) (b2 : Option PubProps)
    (hs : env.search = .resp 200 (some (cid :: cids)))
    (hi : env.info = .resp st2 b2) (hst : st2 ≠ 200) :
    buscar_ingrediente_en_pubchem env nombre =
      partialRecord (some nombre) cid
        ("Error obteniendo detalles: Código " ++ toString st2) ∧
    (buscar_ingrediente_en_pubchem env nombre).cid = some cid ∧
    (buscar_ingrediente_en_pubchem env nombre).url = some (urlOf cid) := by
  have hinner : pubchemInner env nombre =
      .ok (partialRecord (some nombre) cid
        ("Error obteniendo detalles: Código " ++ toString st2)) := by
    unfold pubchemInner
    rw [hs, hi]
    simp [hst]
  have hmain : buscar_ingrediente_en_pubchem env nombre =
      partialRecord (some nombre) cid
        ("Error obteniendo detalles: Código " ++ toString st2) := by
    unfold buscar_ingrediente_en_pubchem
    rw [hinner]
  refine ⟨hmain, ?_, ?_⟩
  · rw [hmain]
    rfl
  · rw [hmain]
    rfl

/-- Environment of the C7 witness: a 404 on the property fetch. -/
def c7EnvW : PubchemEnv := ⟨.resp 200 (some [2244]), .resp 404 none, .resp 200 none⟩

/-- Witness for C7 amended: the handle survives a 404 property response. -/
theorem claim_c7_witness :
    (buscar_ingrediente_en_pubchem c7EnvW "aqua").cid = some 2244 :=
  (claim_c7_amended c7EnvW "aqua" 2244 [] 404 none rfl rfl (by decide)).2.1

/-- C8: the extracted CAS number is the capture of the first synonym, in list
order, matching the CAS pattern; when no synonym matches, nothing is
extracted and no error arises; and the scenario synonym CAS-64-17-5 yields
the captured group 64-17-5. -/
theorem claim_c8_cas_extraction :
    (∀ (pre : List String) (syn : String) (post : List String) (c : String),
        (∀ s ∈ pre, casSearch s.data = none) → casSearch syn.data = some c →
        extractCas (pre ++ syn :: post) = some c) ∧
    (∀ syns : List String, (∀ s ∈ syns, casSearch s.data = none) →
        extractCas syns = none) ∧
    extractCas ["ethanol", "CAS-64-17-5"] = some "64-17-5" := by
  refine ⟨?_, ?_, by decide⟩
  · intro pre
    induction pre with
    | nil =>
      intro syn post c _ hc
      simp only [List.nil_append, extractCas, hc]
    | cons p ps ih =>
      intro syn post c hpre hc
      have hp : casSearch p.data = none := hpre p (by simp)
      have hps : ∀ s ∈ ps, casSearch s.data = none := fun s hs => hpre s (by simp [hs])
      simp only [List.cons_append, extractCas, hp]
      exact ih syn post c hps hc
  · intro syns
    induction syns with
    | nil => intro _; rfl
    | cons s ss ih =>
      intro hall
      have hs : casSearch s.data = none := hall s (by simp)
      simp only [extractCas, hs]
      exact ih (fun x hx => hall x (by simp [hx]))

/-- Witness for C8: a list whose first synonym has no CAS shape and whose
second carries the labelled CAS number. -/
theorem claim_c8_witness :
    extractCas (["ethanol"] ++ "CAS-64-17-5" :: ["alcohol"]) = some "64-17-5" :=
  claim_c8_cas_extraction.1 ["ethanol"] "CAS-64-17-5" ["alcohol"] "64-17-5"
    (by decide) (by decide)

/-- C9: the query 51-84-3 is special-cased.  When Annex II has a CAS Number
column, a containment hit there records only Annex II whatever the other
sources hold; when containment finds nothing, a row-by-row hit (which also
accepts the stripped cell value 51843) records only Annex II as well; and
every other query goes straight to the general search. -/
theorem claim_c9_special_case :
    (∀ (a2 m : DF) (ad : List (String × DF)),
        "CAS Number" ∈ a2.columns →
        filterContains a2 "CAS Number" "51-84-3" = .ok m → m.rows ≠ [] →
        searchOne a2 ad "51-84-3" = .ok ⟨true, [⟨"Annex II", m⟩]⟩) ∧
    (∀ (a2 m : DF) (r : List String) (ad : List (String × DF)),
        "CAS Number" ∈ a2.columns →
        filterContains a2 "CAS Number" "51-84-3" = .ok m → m.rows = [] →
        rowBySearch a2 = some r →
        searchOne a2 ad "51-84-3" = .ok ⟨true, [⟨"Annex II", ⟨a2.columns, [r]⟩⟩]⟩) ∧
    (∀ (a2 : DF) (ad : List (String × DF)) (cas : String),
        cas ≠ "51-84-3" → searchOne a2 ad cas = generalSearch ad cas) := by
  refine ⟨?_, ?_, ?_⟩
  · intro a2 m ad hmem hfc hne
    unfold searchOne
    rw [if_pos ⟨rfl, hmem⟩, hfc]
    have hemp : m.rows.isEmpty = false := by
      cases hr : m.rows with
      | nil => exact absurd hr hne
      | cons a b => rfl
    simp [hemp]
  · intro a2 m r ad hmem hfc hrows hrb
    unfold searchOne
    rw [if_pos ⟨rfl, hmem⟩, hfc]
    simp [hrows, hrb]
  · intro a2 ad cas hcas
    unfold searchOne
    rw [if_neg (fun hand => hcas hand.1)]

/-- Annex II table of the C9 witness. -/
def c9AnnexII : DF := ⟨["CAS Number"], [["51-84-3"]]⟩

/-- A second source of the C9 witness, ignored by the special case. -/
def c9Other : List (String × DF) := [("Annex III", ⟨["CAS Number"], [["51-84-3"]]⟩)]

/-- Witness for C9: the special case records only Annex II even though the
other source also matches. -/
theorem claim_c9_witness :
    searchOne c9AnnexII c9Other "51-84-3" =
      .ok ⟨true, [⟨"Annex II", ⟨["CAS Number"], [["51-84-3"]]⟩⟩]⟩ :=
  claim_c9_special_case.1 c9AnnexII ⟨["CAS Number"], [["51-84-3"]]⟩ c9Other
    (by decide) rfl (by decide)

/-- Registry table of the C10 demonstration. -/
def c10Db : DF := ⟨["Name"], [["abc"]]⟩

/-- Annex II table of the C10 demonstration. -/
def c10AnnexII : DF := ⟨["CAS Number"], [["64-17-5"]]⟩

/-- C10: both the fuzzy name search and the CAS containment search hand the
raw query to a regex-interpreting containment test: the query a.c matches the
cell abc and 64.17.5 matches 64-17-5 though neither cell contains the literal
query, and the invalid pattern ( aborts the whole batch with an exception
instead of yielding a not-found record. -/
theorem claim_c10_regex_injection :
    buscar_ingredientes_por_nombre c10Db ["a.c"] false =
      .ok [⟨["Name", "Búsqueda"], [["abc", "a.c"]]⟩] ∧
    litContains "a.c" "abc" = false ∧
    buscar_ingredientes_por_nombre c10Db ["("] false =
      .error "missing ), unterminated subpattern" ∧
    searchOne c10AnnexII [("Annex II", c10AnnexII)] "64.17.5" =
      .ok ⟨true, [⟨"Annex II", ⟨["CAS Number"], [["64-17-5"]]⟩⟩]⟩ ∧
    litContains "64.17.5" "64-17-5" = false ∧
    searchOne c10AnnexII [("Annex II", c10AnnexII)] "(" =
      .error "missing ), unterminated subpattern" :=
  ⟨rfl, by decide, rfl, rfl, by decide, rfl⟩
